import Mathlib

/-!
Shallow embedding of the Indian stock screening strategy in `script.py`.

Prices, amounts and market caps are modelled as exact rationals;
share quantities, produced by the Python builtin `int(...)`, as integers.
The builtin `int` truncates toward zero, which on rationals is the ceiling
for negative arguments and the floor otherwise.  Dates are day numbers;
day 0 is a Thursday as in the Unix epoch, so the pandas weekly resampling
rule `W` (calendar weeks ending Sunday) groups day `d` into week
`(d + 3) / 7`.
-/

/-- Python `int(x)` applied to a rational: truncation toward zero. -/
def pyInt (q : ℚ) : ℤ := if q < 0 then ⌈q⌉ else ⌊q⌋

/-- One OHLCV bar of a price series.  `open` is a Lean keyword, hence the
field name `open_`. -/
structure PriceBar where
  date : ℕ
  open_ : ℚ
  high : ℚ
  low : ℚ
  close : ℚ
  volume : ℚ
deriving DecidableEq, Repr

/-- Maximum of a list of rationals, `0` only for the empty list: models a
pandas `.max()` over a nonempty column. -/
def listMax : List ℚ → ℚ
  | [] => 0
  | a :: t => t.foldl max a

/-- Minimum of a list of rationals, `0` only for the empty list: models a
pandas `.min()` over a nonempty column. -/
def listMin : List ℚ → ℚ
  | [] => 0
  | a :: t => t.foldl min a

/-- Close of the last bar: `data[Close].iloc[-1]` (junk `0` on empty data). -/
def lastClose (data : List PriceBar) : ℚ := ((data.getLast?).map PriceBar.close).getD 0

/-- Date of the last bar (junk `0` on empty data). -/
def lastDate (data : List PriceBar) : ℕ := ((data.getLast?).map PriceBar.date).getD 0

/-- Run configuration stored by `IndianStockStrategy.__init__`: the portfolio
capital.  The risk fractions are the fixed constants below. -/
structure IndianStockStrategy where
  portfolio_capital : ℚ
deriving DecidableEq, Repr

/-- Constant `0.02` stored as `self.max_risk_per_trade`. -/
def max_risk_per_trade : ℚ := 0.02

/-- Constant `0.10` stored as `self.max_position_size`. -/
def max_position_size : ℚ := 0.10

/-- Derived field `self.max_risk_amount = portfolio_capital * max_risk_per_trade`. -/
def IndianStockStrategy.max_risk_amount (s : IndianStockStrategy) : ℚ :=
  s.portfolio_capital * max_risk_per_trade

/-- Derived field `self.max_position_amount = portfolio_capital * max_position_size`. -/
def IndianStockStrategy.max_position_amount (s : IndianStockStrategy) : ℚ :=
  s.portfolio_capital * max_position_size

/-- Method `calculate_position_size(current_price, stop_loss, target_price)`:
returns the triple `(quantity, actual_risk, potential_profit)`. -/
def calculate_position_size (s : IndianStockStrategy)
    (current_price stop_loss target_price : ℚ) : ℤ × ℚ × ℚ :=
  let risk_per_share := current_price - stop_loss
  if risk_per_share ≤ 0 then (0, 0, 0)
  else
    let reward_per_share := target_price - current_price
    let risk_reward_ratio := reward_per_share / risk_per_share
    if risk_reward_ratio ≤ 1 then (0, 0, 0)
    else
      let max_qty_risk := pyInt (s.max_risk_amount / risk_per_share)
      let max_qty_position := pyInt (s.max_position_amount / current_price)
      let quantity := min max_qty_risk max_qty_position
      if quantity ≤ 0 then (0, 0, 0)
      else (quantity, (quantity : ℚ) * risk_per_share, (quantity : ℚ) * reward_per_share)

/-- The position sizer as the specification words it: the two quantity caps
are floors of the two quotients.  To be compared with
`calculate_position_size`, whose `int(...)` truncates toward zero. -/
def positionSizeSpec (s : IndianStockStrategy)
    (entry stop target : ℚ) : ℤ × ℚ × ℚ :=
  if entry - stop ≤ 0 then (0, 0, 0)
  else if (target - entry) / (entry - stop) ≤ 1 then (0, 0, 0)
  else
    let q := min ⌊s.max_risk_amount / (entry - stop)⌋ ⌊s.max_position_amount / entry⌋
    if q ≤ 0 then (0, 0, 0)
    else (q, (q : ℚ) * (entry - stop), (q : ℚ) * (target - entry))

/-- Method `calculate_52_week_range(data)`: the pair of 52-week extremes and
their midpoint, `(week_52_high, week_52_low, midpoint)`. -/
def calculate_52_week_range (data : List PriceBar) : ℚ × ℚ × ℚ :=
  let week_52_high := listMax (data.map PriceBar.high)
  let week_52_low := listMin (data.map PriceBar.low)
  (week_52_high, week_52_low, (week_52_high + week_52_low) / 2)

/-- Method `check_first_half_criterion(current_price, week_52_high, week_52_low)`:
the chained comparison `week_52_low <= current_price <= midpoint`. -/
def check_first_half_criterion (current_price week_52_high week_52_low : ℚ) : Bool :=
  let midpoint := (week_52_high + week_52_low) / 2
  decide (week_52_low ≤ current_price) && decide (current_price ≤ midpoint)

/-- The window selected by `data.last(30D)` in `check_monthly_candle_criterion`:
the bars whose date lies strictly after `lastDate data - 30`, i.e. within the
trailing 30 calendar days of the series. -/
def monthlyWindow (data : List PriceBar) : List PriceBar :=
  data.filter fun b => lastDate data < b.date + 30

/-- Method `check_monthly_candle_criterion(data, current_price)`: false on an
empty 30-day window, else the chained comparison
`range_75_percent <= current_price <= monthly_high`. -/
def check_monthly_candle_criterion (data : List PriceBar) (current_price : ℚ) : Bool :=
  let current_month := monthlyWindow data
  if current_month.length = 0 then false
  else
    let monthly_high := listMax (current_month.map PriceBar.high)
    let monthly_low := listMin (current_month.map PriceBar.low)
    let range_75_percent := monthly_low + 0.75 * (monthly_high - monthly_low)
    decide (range_75_percent ≤ current_price) && decide (current_price ≤ monthly_high)

/-- Week number of a bar under the pandas resampling rule `W` (weeks ending
Sunday): day 0 is a Thursday, so days Monday..Sunday share `(date + 3) / 7`. -/
def weekIndex (b : PriceBar) : ℕ := (b.date + 3) / 7

/-- Tail of the grouping of a chronological series into runs of equal week
number: `w` is the week of the group accumulated (reversed) in `acc`. -/
def groupWeeksGo (w : ℕ) (acc : List PriceBar) : List PriceBar → List (List PriceBar)
  | [] => [acc.reverse]
  | b :: t =>
    if weekIndex b = w then groupWeeksGo w (b :: acc) t
    else acc.reverse :: groupWeeksGo (weekIndex b) [b] t

/-- Grouping of a chronological series into runs of bars sharing a week
number (the nonempty bins of `data.resample(W)`; `dropna` discards the
empty bins, which are therefore never materialised here). -/
def groupWeeks : List PriceBar → List (List PriceBar)
  | [] => []
  | b :: t => groupWeeksGo (weekIndex b) [b] t

/-- Aggregation of one weekly bin:
`Open first, High max, Low min, Close last, Volume sum`; the bar is dated at
the Sunday ending its week.  The empty case is junk, never produced by
`groupWeeks`. -/
def aggWeek : List PriceBar → PriceBar
  | [] => ⟨0, 0, 0, 0, 0, 0⟩
  | b :: t =>
    { date := 7 * weekIndex b + 3
      open_ := b.open_
      high := listMax ((b :: t).map PriceBar.high)
      low := listMin ((b :: t).map PriceBar.low)
      close := lastClose (b :: t)
      volume := ((b :: t).map PriceBar.volume).sum }

/-- The weekly series `data.resample(W).agg(...).dropna()`. -/
def resampleWeekly (data : List PriceBar) : List PriceBar :=
  (groupWeeks data).map aggWeek

/-- Method `check_weekly_candle_criterion(data)`: false with fewer than two
weekly bars, else `is_green or higher_high` on the last two weekly bars
(`iloc[-1]` and `iloc[-2]`, here the first two of the reversed list). -/
def check_weekly_candle_criterion (data : List PriceBar) : Bool :=
  let weekly_data := resampleWeekly data
  match weekly_data.reverse with
  | current_week :: previous_week :: _ =>
    let is_green := decide (current_week.close > current_week.open_)
    let higher_high := decide (current_week.high > previous_week.high)
    is_green || higher_high
  | _ => false

/-- The screening record built at the end of `screen_stock`; the dict keys
`52_week_high` and `52_week_low` become `week_52_high` and `week_52_low`. -/
structure ScreeningResult where
  symbol : String
  current_price : ℚ
  entry_price : ℚ
  stop_loss : ℚ
  target_price : ℚ
  quantity : ℤ
  risk_amount : ℚ
  profit_potential : ℚ
  risk_reward_ratio : ℚ
  market_cap : ℚ
  week_52_high : ℚ
  week_52_low : ℚ
  position_value : ℚ
  criterion_1 : Bool
  criterion_2 : Bool
  criterion_3 : Bool
deriving DecidableEq, Repr

/-- Method `screen_stock(symbol)`.  The two external fetches are passed in:
`market_cap` is the value of `get_market_cap(symbol)` (`0` on failure) and
`odata` the result of `get_stock_data(symbol)` (`none` models Python `None`).
Returns `none` where the Python returns `None`. -/
def screen_stock (s : IndianStockStrategy) (symbol : String) (market_cap : ℚ)
    (odata : Option (List PriceBar)) : Option ScreeningResult :=
  if market_cap < 1000 then none
  else
    match odata with
    | none => none
    | some data =>
      if data.length < 50 then none
      else
        let current_price := lastClose data
        let week_52_high := (calculate_52_week_range data).1
        let week_52_low := (calculate_52_week_range data).2.1
        let criterion_1 := check_first_half_criterion current_price week_52_high week_52_low
        let criterion_2 := check_monthly_candle_criterion data current_price
        let criterion_3 := check_weekly_candle_criterion data
        if !(criterion_1 && criterion_2 && criterion_3) then none
        else
          let stop_loss := week_52_low
          let target_price := week_52_high
          let psz := calculate_position_size s current_price stop_loss target_price
          let quantity := psz.1
          let risk_amount := psz.2.1
          let profit_potential := psz.2.2
          if quantity ≤ 0 then none
          else some
            { symbol := symbol
              current_price := current_price
              entry_price := current_price
              stop_loss := stop_loss
              target_price := target_price
              quantity := quantity
              risk_amount := risk_amount
              profit_potential := profit_potential
              risk_reward_ratio := if risk_amount > 0 then profit_potential / risk_amount else 0
              market_cap := market_cap
              week_52_high := week_52_high
              week_52_low := week_52_low
              position_value := current_price * (quantity : ℚ)
              criterion_1 := criterion_1
              criterion_2 := criterion_2
              criterion_3 := criterion_3 }

def nifty50Stocks : List String :=
  [
    "RELIANCE.NS", "TCS.NS", "INFY.NS", "HDFCBANK.NS", "ICICIBANK.NS",
    "HINDUNILVR.NS", "SBIN.NS", "BHARTIARTL.NS", "ITC.NS", "KOTAKBANK.NS",
    "LT.NS", "ASIANPAINT.NS", "MARUTI.NS", "HCLTECH.NS", "WIPRO.NS",
    "TITAN.NS", "ULTRACEMCO.NS", "ONGC.NS", "TATASTEEL.NS", "ADANIPORTS.NS",
    "POWERGRID.NS", "NESTLEIND.NS", "BAJFINANCE.NS", "BAJAJFINSV.NS", "TECHM.NS",
    "SUNPHARMA.NS", "DRREDDY.NS", "CIPLA.NS", "DIVISLAB.NS", "COALINDIA.NS",
    "NTPC.NS", "JSWSTEEL.NS", "TATAMOTORS.NS", "M&M.NS", "GRASIM.NS",
    "BRITANNIA.NS", "SHREECEM.NS", "EICHERMOT.NS", "UPL.NS", "HINDALCO.NS",
    "BAJAJ-AUTO.NS", "APOLLOHOSP.NS", "HEROMOTOCO.NS", "BPCL.NS", "IOC.NS",
    "INDUSINDBK.NS", "AXISBANK.NS", "VEDL.NS", "ADANITRANS.NS", "TATACONSUM.NS"]

def sensexStocks : List String :=
  [
    "RELIANCE.NS", "TCS.NS", "INFY.NS", "HDFCBANK.NS", "ICICIBANK.NS",
    "HINDUNILVR.NS", "SBIN.NS", "BHARTIARTL.NS", "ITC.NS", "KOTAKBANK.NS",
    "LT.NS", "ASIANPAINT.NS", "MARUTI.NS", "HCLTECH.NS", "BAJFINANCE.NS",
    "TITAN.NS", "ULTRACEMCO.NS", "ONGC.NS", "TATASTEEL.NS", "POWERGRID.NS",
    "NESTLEIND.NS", "BAJAJFINSV.NS", "TECHM.NS", "SUNPHARMA.NS", "NTPC.NS",
    "JSWSTEEL.NS", "TATAMOTORS.NS", "M&M.NS", "AXISBANK.NS", "INDUSINDBK.NS"]

def nifty100Stocks : List String :=
  [
    "RELIANCE.NS", "TCS.NS", "INFY.NS", "HDFCBANK.NS", "ICICIBANK.NS",
    "HINDUNILVR.NS", "SBIN.NS", "BHARTIARTL.NS", "ITC.NS", "KOTAKBANK.NS",
    "LT.NS", "ASIANPAINT.NS", "MARUTI.NS", "HCLTECH.NS", "WIPRO.NS",
    "TITAN.NS", "ULTRACEMCO.NS", "ONGC.NS", "TATASTEEL.NS", "ADANIPORTS.NS",
    "POWERGRID.NS", "NESTLEIND.NS", "BAJFINANCE.NS", "BAJAJFINSV.NS", "TECHM.NS",
    "SUNPHARMA.NS", "DRREDDY.NS", "CIPLA.NS", "DIVISLAB.NS", "COALINDIA.NS",
    "NTPC.NS", "JSWSTEEL.NS", "TATAMOTORS.NS", "M&M.NS", "GRASIM.NS",
    "BRITANNIA.NS", "SHREECEM.NS", "EICHERMOT.NS", "UPL.NS", "HINDALCO.NS",
    "BAJAJ-AUTO.NS", "APOLLOHOSP.NS", "HEROMOTOCO.NS", "BPCL.NS", "IOC.NS",
    "INDUSINDBK.NS", "AXISBANK.NS", "VEDL.NS", "ADANITRANS.NS", "TATACONSUM.NS",
    "ADANIENT.NS", "SIEMENS.NS", "DLF.NS", "GODREJCP.NS", "DABUR.NS",
    "HAVELLS.NS", "TRENT.NS", "BEL.NS", "BANKBARODA.NS", "PNB.NS",
    "CANBK.NS", "UNIONBANK.NS", "INDHOTEL.NS", "CONCOR.NS", "BOSCHLTD.NS",
    "TATAPOWER.NS", "TORNTPHARM.NS", "COLPAL.NS", "MARICO.NS", "PIDILITIND.NS",
    "GLAND.NS", "BERGEPAINT.NS", "LUPIN.NS", "AMBUJACEM.NS", "ACC.NS",
    "ICICIPRULI.NS", "SBILIFE.NS", "HDFCLIFE.NS", "BAJAJHLDNG.NS", "MOTHERSON.NS",
    "VOLTAS.NS", "AUBANK.NS", "BANDHANBNK.NS", "IDFCFIRSTB.NS", "PEL.NS",
    "GODREJPROP.NS", "OBEROIRLTY.NS", "PRESTIGE.NS", "MCDOWELL-N.NS", "ABB.NS",
    "SBICARD.NS", "INDIGO.NS", "PETRONET.NS", "MRF.NS", "PAGEIND.NS",
    "ALKEM.NS", "BIOCON.NS", "DMART.NS", "NAUKRI.NS", "ZOMATO.NS"]

def nifty500Stocks : List String :=
  [
    "RELIANCE.NS", "TCS.NS", "INFY.NS", "HDFCBANK.NS", "ICICIBANK.NS",
    "HINDUNILVR.NS", "SBIN.NS", "BHARTIARTL.NS", "ITC.NS", "KOTAKBANK.NS",
    "LT.NS", "ASIANPAINT.NS", "MARUTI.NS", "HCLTECH.NS", "WIPRO.NS",
    "TITAN.NS", "ULTRACEMCO.NS", "ONGC.NS", "TATASTEEL.NS", "ADANIPORTS.NS",
    "POWERGRID.NS", "NESTLEIND.NS", "BAJFINANCE.NS", "BAJAJFINSV.NS", "TECHM.NS",
    "SUNPHARMA.NS", "DRREDDY.NS", "CIPLA.NS", "DIVISLAB.NS", "COALINDIA.NS",
    "NTPC.NS", "JSWSTEEL.NS", "TATAMOTORS.NS", "M&M.NS", "GRASIM.NS",
    "BRITANNIA.NS", "SHREECEM.NS", "EICHERMOT.NS", "UPL.NS", "HINDALCO.NS",
    "BAJAJ-AUTO.NS", "APOLLOHOSP.NS", "HEROMOTOCO.NS", "BPCL.NS", "IOC.NS",
    "INDUSINDBK.NS", "AXISBANK.NS", "VEDL.NS", "ADANITRANS.NS", "TATACONSUM.NS",
    "ADANIENT.NS", "SIEMENS.NS", "DLF.NS", "GODREJCP.NS", "DABUR.NS",
    "HAVELLS.NS", "TRENT.NS", "BEL.NS", "BANKBARODA.NS", "PNB.NS",
    "CANBK.NS", "UNIONBANK.NS", "INDHOTEL.NS", "CONCOR.NS", "BOSCHLTD.NS",
    "TATAPOWER.NS", "TORNTPHARM.NS", "COLPAL.NS", "MARICO.NS", "PIDILITIND.NS",
    "GLAND.NS", "BERGEPAINT.NS", "LUPIN.NS", "AMBUJACEM.NS", "ACC.NS",
    "ICICIPRULI.NS", "SBILIFE.NS", "HDFCLIFE.NS", "BAJAJHLDNG.NS", "MOTHERSON.NS",
    "VOLTAS.NS", "AUBANK.NS", "BANDHANBNK.NS", "IDFCFIRSTB.NS", "PEL.NS",
    "GODREJPROP.NS", "OBEROIRLTY.NS", "PRESTIGE.NS", "MCDOWELL-N.NS", "ABB.NS",
    "SBICARD.NS", "INDIGO.NS", "PETRONET.NS", "MRF.NS", "PAGEIND.NS",
    "ALKEM.NS", "BIOCON.NS", "DMART.NS", "NAUKRI.NS", "ZOMATO.NS",
    "PAYTM.NS", "POLICYBZR.NS", "ZEEL.NS", "DIXON.NS", "LTIM.NS",
    "PERSISTENT.NS", "COFORGE.NS", "MPHASIS.NS", "LTTS.NS", "HAPPSTMNDS.NS",
    "CROMPTON.NS", "WHIRLPOOL.NS", "CUMMINSIND.NS", "ESCORTS.NS", "ASHOKLEY.NS",
    "BALKRISIND.NS", "APOLLOTYRE.NS", "CEATLTD.NS", "EXIDEIND.NS", "AMARAJABAT.NS",
    "FORCEMOT.NS", "TVSMOTOR.NS", "BAJAJHIND.NS", "METROPOLIS.NS", "LALPATHLAB.NS",
    "AUROPHARMA.NS", "IPCALAB.NS", "LAURUSLABS.NS", "NATCOPHARM.NS", "PFIZER.NS",
    "ABBOTINDIA.NS", "GLAXO.NS", "SANOFI.NS", "CENTRALBK.NS", "INDIANB.NS",
    "MAHABANK.NS", "CHOLAFIN.NS", "LICHSGFIN.NS", "SHRIRAMFIN.NS", "IIFL.NS",
    "RECLTD.NS", "PFC.NS", "IRCTC.NS", "IEX.NS", "IRFC.NS",
    "RAILTEL.NS", "HAL.NS", "BDL.NS", "COCHINSHIP.NS", "MAZDA.NS",
    "GAIL.NS", "GMRINFRA.NS", "ADANIGREEN.NS", "ADANIPOWER.NS", "TATAELXSI.NS",
    "MFSL.NS", "GNFC.NS", "DEEPAKNTR.NS", "BALRAMCHIN.NS", "TATACHEM.NS",
    "PIIND.NS", "SRF.NS", "ATUL.NS", "CHAMBLFERT.NS", "COROMANDEL.NS",
    "MANAPPURAM.NS", "MUTHOOTFIN.NS", "SJVN.NS", "NHPC.NS", "ZENSARTECH.NS",
    "INFY.NS", "INTELLECT.NS", "SONATSOFTW.NS", "KPITTECH.NS", "CYIENT.NS",
    "RBLBANK.NS", "FEDERALBNK.NS", "IDBI.NS", "CESC.NS", "ADANIENSOL.NS",
    "JSL.NS", "SAIL.NS", "JINDALSTEL.NS", "NMDC.NS", "NATIONALUM.NS",
    "RATNAMANI.NS", "WELCORP.NS", "RELAXO.NS", "BATA.NS", "VBL.NS",
    "TATACOMM.NS", "BHARATFORG.NS", "TIMKEN.NS", "SCHNEIDER.NS", "CROMPTON.NS",
    "KEI.NS", "POLYCAB.NS", "APLAPOLLO.NS", "ASTRAL.NS", "SUPREMEIND.NS",
    "NILKAMAL.NS", "SYMPHONY.NS", "BLUESTARCO.NS", "VGUARD.NS", "FINEORG.NS",
    "EIDPARRY.NS", "RAJESHEXPO.NS", "TITAN.NS", "MANYAVAR.NS", "ABFRL.NS",
    "TRENT.NS", "SHOPERSTOP.NS", "JUBLFOOD.NS", "WESTLIFE.NS", "SAPPHIRE.NS",
    "GOCOLORS.NS", "VMART.NS", "BSOFT.NS", "IRCON.NS", "NBCC.NS",
    "REDINGTON.NS", "AMBER.NS", "ROUTE.NS", "GICRE.NS", "NIACL.NS",
    "STARHEALTH.NS", "MAHLIFE.NS", "ITI.NS", "MTNL.NS", "PVR.NS",
    "PVRINOX.NS", "BASF.NS", "HONAUT.NS", "3MINDIA.NS", "GILLETTE.NS",
    "BAYERCROP.NS", "GRINDWELL.NS", "CARBORUNIV.NS", "SKFINDIA.NS"]

def niftyMidcapStocks : List String :=
  [
    "GODREJCP.NS", "DABUR.NS", "HAVELLS.NS", "TRENT.NS", "BEL.NS",
    "BANKBARODA.NS", "PNB.NS", "CANBK.NS", "UNIONBANK.NS", "INDHOTEL.NS",
    "BOSCHLTD.NS", "TATAPOWER.NS", "TORNTPHARM.NS", "COLPAL.NS", "MARICO.NS",
    "PIDILITIND.NS", "GLAND.NS", "BERGEPAINT.NS", "LUPIN.NS", "AMBUJACEM.NS",
    "ACC.NS", "ICICIPRULI.NS", "SBILIFE.NS", "HDFCLIFE.NS", "MOTHERSON.NS",
    "VOLTAS.NS", "AUBANK.NS", "BANDHANBNK.NS", "IDFCFIRSTB.NS", "PEL.NS",
    "GODREJPROP.NS", "OBEROIRLTY.NS", "PRESTIGE.NS", "ABB.NS", "SBICARD.NS",
    "INDIGO.NS", "PETRONET.NS", "MRF.NS", "ALKEM.NS", "BIOCON.NS",
    "DMART.NS", "NAUKRI.NS", "DIXON.NS", "LTIM.NS", "PERSISTENT.NS",
    "COFORGE.NS", "MPHASIS.NS", "LTTS.NS", "CROMPTON.NS", "CUMMINSIND.NS"]

/-- Method `_get_fallback_stocks(index)`: the curated dict lookup
`fallback_lists.get(index, fallback_lists["^NSEI"])` -- unknown index
identifiers silently default to the NIFTY 50 list. -/
def _get_fallback_stocks (index : String) : List String :=
  if index = "^NSEI" then nifty50Stocks
  else if index = "^BSESN" then sensexStocks
  else if index = "^CNX100" then nifty100Stocks
  else if index = "^CRSLDX" then nifty500Stocks
  else if index = "NIFTY_MIDCAP" then niftyMidcapStocks
  else nifty50Stocks

/-- Suffixing in `_get_nifty_symbols`: `symbol+".NS" if not symbol.endswith(".NS")`. -/
def addNS (symbol : String) : String :=
  if symbol.endsWith ".NS" then symbol else symbol ++ ".NS"

/-- Method `_get_nifty_symbols(index)`.  The yfinance constituents lookup is
external; its outcome is the parameter `fetched` (`none` models both an
exception and a missing attribute, as both fall through).  A nonempty fetched
list is suffixed and returned; otherwise the curated fallback list is used. -/
def _get_nifty_symbols (fetched : Option (List String)) (index : String) : List String :=
  match fetched with
  | some constituents =>
    if 0 < constituents.length then constituents.map addNS
    else _get_fallback_stocks index
  | none => _get_fallback_stocks index

lemma pyInt_of_nonneg {q : ℚ} (h : 0 ≤ q) : pyInt q = ⌊q⌋ := by
  simp [pyInt, not_lt.mpr h]

lemma pyInt_pos_iff {q : ℚ} : 0 < pyInt q ↔ 1 ≤ q := by
  unfold pyInt
  split
  · rename_i h
    constructor
    · intro hc
      have : (⌈q⌉ : ℤ) ≤ 0 := Int.ceil_le.mpr (by exact_mod_cast h.le)
      omega
    · intro hc; exact absurd (lt_of_le_of_lt hc h) (by norm_num)
  · exact Int.floor_pos

/-- **C1.** The position sizer agrees everywhere with the floor-based
formulation of the specification: it returns `(0,0,0)` exactly when
`entry - stop ≤ 0`, or the reward:risk ratio is `≤ 1`, or the minimum of the
two floored quantity caps is `≤ 0`; otherwise it returns that minimum as the
quantity together with `quantity * (entry - stop)` and
`quantity * (target - entry)`.  On the documented example
`entry=100, stop=90, target=130` with capital `10000` (so
`max_risk_amount=200`, `max_position_amount=1000`) it returns
`(10, 100, 300)`. -/
theorem c1_position_sizer :
    (∀ (s : IndianStockStrategy) (entry stop target : ℚ),
        calculate_position_size s entry stop target = positionSizeSpec s entry stop target) ∧
    calculate_position_size ⟨10000⟩ 100 90 130 = (10, 100, 300) := by
  constructor
  · intro s entry stop target
    unfold calculate_position_size positionSizeSpec
    by_cases h1 : entry - stop ≤ 0
    · simp [h1]
    · simp only [h1, if_false]
      by_cases h2 : (target - entry) / (entry - stop) ≤ 1
      · simp [h2]
      · simp only [h2, if_false]
        set a := s.max_risk_amount / (entry - stop) with ha
        set b := s.max_position_amount / entry with hb
        have hposiff : (0 < min (pyInt a) (pyInt b)) ↔ (0 < min ⌊a⌋ ⌊b⌋) := by
          rw [lt_min_iff, lt_min_iff, pyInt_pos_iff, pyInt_pos_iff,
            Int.floor_pos, Int.floor_pos]
        by_cases h3 : min (pyInt a) (pyInt b) ≤ 0
        · have h3' : min ⌊a⌋ ⌊b⌋ ≤ 0 := by
            by_contra hc
            exact h3.not_lt (hposiff.mpr (not_le.mp hc))
          simp [h3, h3']
        · have h3' : ¬ min ⌊a⌋ ⌊b⌋ ≤ 0 := by
            intro hc
            exact h3 (not_lt.mp fun hlt => hc.not_lt (hposiff.mp hlt))
          have hab : 1 ≤ a ∧ 1 ≤ b := by
            have := lt_min_iff.mp (not_le.mp h3)
            exact ⟨pyInt_pos_iff.mp this.1, pyInt_pos_iff.mp this.2⟩
          have hea : pyInt a = ⌊a⌋ := pyInt_of_nonneg (le_trans zero_le_one hab.1)
          have heb : pyInt b = ⌊b⌋ := pyInt_of_nonneg (le_trans zero_le_one hab.2)
          simp [h3, h3', hea, heb]
  · norm_num [calculate_position_size, pyInt, IndianStockStrategy.max_risk_amount,
      IndianStockStrategy.max_position_amount, max_risk_per_trade, max_position_size,
      min_def]

lemma le_foldl_max (t : List ℚ) : ∀ a : ℚ, a ≤ t.foldl max a := by
  induction t with
  | nil => intro a; exact le_refl a
  | cons b t ih => intro a; exact le_trans (le_max_left a b) (ih (max a b))

lemma mem_le_foldl_max (t : List ℚ) : ∀ a x : ℚ, x ∈ t → x ≤ t.foldl max a := by
  induction t with
  | nil => intro a x h; cases h
  | cons b t ih =>
    intro a x h
    rcases List.mem_cons.mp h with rfl | h
    · exact le_trans (le_max_right a x) (le_foldl_max t (max a x))
    · exact ih (max a b) x h

lemma le_listMax_of_mem {l : List ℚ} {x : ℚ} (h : x ∈ l) : x ≤ listMax l := by
  cases l with
  | nil => cases h
  | cons a t =>
    rcases List.mem_cons.mp h with rfl | h
    · exact le_foldl_max t x
    · exact mem_le_foldl_max t a x h

lemma foldl_min_le (t : List ℚ) : ∀ a : ℚ, t.foldl min a ≤ a := by
  induction t with
  | nil => intro a; exact le_refl a
  | cons b t ih => intro a; exact le_trans (ih (min a b)) (min_le_left a b)

lemma foldl_min_le_mem (t : List ℚ) : ∀ a x : ℚ, x ∈ t → t.foldl min a ≤ x := by
  induction t with
  | nil => intro a x h; cases h
  | cons b t ih =>
    intro a x h
    rcases List.mem_cons.mp h with rfl | h
    · exact le_trans (foldl_min_le t (min a x)) (min_le_right a x)
    · exact ih (min a b) x h

lemma listMin_le_of_mem {l : List ℚ} {x : ℚ} (h : x ∈ l) : listMin l ≤ x := by
  cases l with
  | nil => cases h
  | cons a t =>
    rcases List.mem_cons.mp h with rfl | h
    · exact foldl_min_le t x
    · exact foldl_min_le_mem t a x h

/-- A degenerate one-bar series whose bar has its Low above its High. -/
def invertedBar : PriceBar := ⟨0, 100, 100, 200, 150, 0⟩

/-- A well-formed one-bar series: High 200, Low 100, Close 150. -/
def okBar : PriceBar := ⟨0, 100, 200, 100, 150, 0⟩

/-- **C3, counterexample.**  The claim quantifies over every price series,
but for the series `[invertedBar]` (a bar with Low 200 above High 100) the
52-week range is `high52 = 100, low52 = 200, midpoint = 150`, and the
first-half predicate is false at `current_price = low52`, against the
claimed `first_half(low52) = true`. -/
theorem c3_counterexample :
    calculate_52_week_range [invertedBar] = (100, 200, 150) ∧
    check_first_half_criterion 200 100 200 = false := by
  constructor
  · norm_num [calculate_52_week_range, listMax, listMin, invertedBar]
  · norm_num [check_first_half_criterion]

/-- **C3, amended.**  For every nonempty price series whose bars each have
`Low ≤ High`: the midpoint is `(high52 + low52) / 2`, the first-half
predicate holds iff `low52 ≤ current_price ≤ midpoint` with both boundaries
inclusive, it is true at `low52` and at the midpoint, and false at
`midpoint + ε` for every `ε > 0`. -/
theorem c3_first_half (data : List PriceBar) (hne : data ≠ [])
    (hwf : ∀ b ∈ data, b.low ≤ b.high) :
    (calculate_52_week_range data).2.2 =
      ((calculate_52_week_range data).1 + (calculate_52_week_range data).2.1) / 2 ∧
    (∀ p : ℚ,
      check_first_half_criterion p (calculate_52_week_range data).1
          (calculate_52_week_range data).2.1 = true ↔
        (calculate_52_week_range data).2.1 ≤ p ∧ p ≤ (calculate_52_week_range data).2.2) ∧
    check_first_half_criterion (calculate_52_week_range data).2.1
      (calculate_52_week_range data).1 (calculate_52_week_range data).2.1 = true ∧
    check_first_half_criterion (calculate_52_week_range data).2.2
      (calculate_52_week_range data).1 (calculate_52_week_range data).2.1 = true ∧
    ∀ ε : ℚ, 0 < ε →
      check_first_half_criterion ((calculate_52_week_range data).2.2 + ε)
        (calculate_52_week_range data).1 (calculate_52_week_range data).2.1 = false := by
  obtain ⟨b, t, rfl⟩ := List.exists_cons_of_ne_nil hne
  have hmem : b.low ∈ (b :: t).map PriceBar.low :=
    List.mem_map_of_mem PriceBar.low (List.mem_cons_self b t)
  have hmem2 : b.high ∈ (b :: t).map PriceBar.high :=
    List.mem_map_of_mem PriceBar.high (List.mem_cons_self b t)
  have hlow : listMin ((b :: t).map PriceBar.low) ≤ b.low := listMin_le_of_mem hmem
  have hhigh : b.high ≤ listMax ((b :: t).map PriceBar.high) := le_listMax_of_mem hmem2
  have hLH : listMin ((b :: t).map PriceBar.low) ≤ listMax ((b :: t).map PriceBar.high) :=
    hlow.trans ((hwf b (List.mem_cons_self b t)).trans hhigh)
  set H := listMax ((b :: t).map PriceBar.high) with hH
  set L := listMin ((b :: t).map PriceBar.low) with hL
  refine ⟨by simp [calculate_52_week_range], ?_, ?_, ?_, ?_⟩
  · intro p
    simp only [calculate_52_week_range, check_first_half_criterion, Bool.and_eq_true,
      decide_eq_true_eq]
  · have hmid : L ≤ (H + L) / 2 := by linarith
    simp only [calculate_52_week_range, check_first_half_criterion, Bool.and_eq_true,
      decide_eq_true_eq]
    exact ⟨le_refl L, hmid⟩
  · have hmid : L ≤ (H + L) / 2 := by linarith
    simp only [calculate_52_week_range, check_first_half_criterion, Bool.and_eq_true,
      decide_eq_true_eq]
    exact ⟨hmid, le_refl _⟩
  · intro ε hε
    have hnot : ¬((H + L) / 2 + ε ≤ (H + L) / 2) := by linarith
    have h2 : decide ((H + L) / 2 + ε ≤ (H + L) / 2) = false := decide_eq_false hnot
    simp only [calculate_52_week_range, check_first_half_criterion, h2, Bool.and_false]

/-- **C3, witness.** -/
theorem c3_first_half_witness : check_first_half_criterion 151 200 100 = false := by
  have h := (c3_first_half [okBar] (by simp)
    (by intro b hb; simp only [List.mem_singleton] at hb; subst hb; norm_num [okBar])).2.2.2.2
    1 one_pos
  have he : calculate_52_week_range [okBar] = (200, 100, 150) := by
    norm_num [calculate_52_week_range, listMax, listMin, okBar]
  rw [he] at h
  norm_num at h
  exact h

/-- A one-bar series whose 30-day window has Low 100 and High 200. -/
def mBar : PriceBar := ⟨0, 150, 200, 100, 150, 0⟩

/-- **C4.**  The monthly-candle predicate is false whenever the 30-day
window holds no bar, and otherwise holds iff
`monthly_low + 0.75 * (monthly_high - monthly_low) ≤ current_price ≤ monthly_high`,
both boundaries inclusive; for a window with Low 100 and High 200 it is true
at 175 and 200 and false at 174.999 and 99. -/
theorem c4_monthly :
    (∀ (data : List PriceBar) (p : ℚ),
      (monthlyWindow data = [] → check_monthly_candle_criterion data p = false) ∧
      (monthlyWindow data ≠ [] →
        (check_monthly_candle_criterion data p = true ↔
          listMin ((monthlyWindow data).map PriceBar.low) +
              0.75 * (listMax ((monthlyWindow data).map PriceBar.high) -
                listMin ((monthlyWindow data).map PriceBar.low)) ≤ p ∧
            p ≤ listMax ((monthlyWindow data).map PriceBar.high)))) ∧
    check_monthly_candle_criterion [mBar] 175 = true ∧
    check_monthly_candle_criterion [mBar] 200 = true ∧
    check_monthly_candle_criterion [mBar] 174.999 = false ∧
    check_monthly_candle_criterion [mBar] 99 = false := by
  refine ⟨?_, ?_, ?_, ?_, ?_⟩
  · intro data p
    constructor
    · intro h
      simp [check_monthly_candle_criterion, h]
    · intro h
      have hlen : ¬(monthlyWindow data).length = 0 := by
        simpa [List.length_eq_zero] using h
      simp only [check_monthly_candle_criterion, hlen, if_false, Bool.and_eq_true,
        decide_eq_true_eq]
  · norm_num [check_monthly_candle_criterion, monthlyWindow, lastDate, mBar, listMax, listMin]
  · norm_num [check_monthly_candle_criterion, monthlyWindow, lastDate, mBar, listMax, listMin]
  · norm_num [check_monthly_candle_criterion, monthlyWindow, lastDate, mBar, listMax, listMin]
  · norm_num [check_monthly_candle_criterion, monthlyWindow, lastDate, mBar, listMax, listMin]

/-- **C4, witness.** -/
theorem c4_monthly_witness : check_monthly_candle_criterion [mBar] 175 = true := by
  have h := (c4_monthly.1 [mBar] 175).2
    (by norm_num [monthlyWindow, lastDate, mBar])
  refine h.mpr ⟨?_, ?_⟩ <;>
    norm_num [monthlyWindow, lastDate, mBar, listMax, listMin]

/-- Three daily bars spanning two calendar weeks, to exhibit the weekly
aggregation (first Open, max High, min Low, last Close, summed Volume). -/
def wkb1 : PriceBar := ⟨0, 10, 20, 5, 12, 100⟩

/-- Second bar of the first week. -/
def wkb2 : PriceBar := ⟨1, 12, 25, 8, 11, 50⟩

/-- Single bar of the second week. -/
def wkb3 : PriceBar := ⟨7, 11, 30, 9, 15, 70⟩

/-- Previous week for the green example: one Monday bar. -/
def wA1 : PriceBar := ⟨4, 100, 110, 90, 100, 0⟩

/-- Current week for the green example: close 105 above open 100. -/
def wA2 : PriceBar := ⟨11, 100, 110, 90, 105, 0⟩

/-- Previous week for the higher-high example, high 200. -/
def wB1 : PriceBar := ⟨4, 100, 200, 90, 100, 0⟩

/-- Current week for the higher-high example: red but high 210 above 200. -/
def wB2 : PriceBar := ⟨11, 105, 210, 90, 100, 0⟩

/-- Previous week for the rejected example, high 200. -/
def wC1 : PriceBar := ⟨4, 100, 200, 90, 100, 0⟩

/-- Current week for the rejected example: red, high 150 below 200. -/
def wC2 : PriceBar := ⟨11, 105, 150, 90, 100, 0⟩

/-- **C5.**  The weekly-momentum predicate is false with fewer than two
weekly bars after resampling, and otherwise holds iff the latest weekly bar
is green (close above open) or its high strictly exceeds the previous weekly
bar's high.  The resampling aggregates each calendar week by first Open,
max High, min Low, last Close and summed Volume, as the concrete two-week
series shows; the three documented two-week examples evaluate as claimed. -/
theorem c5_weekly :
    (∀ data : List PriceBar, (resampleWeekly data).length < 2 →
      check_weekly_candle_criterion data = false) ∧
    (∀ (data : List PriceBar) (current_week previous_week : PriceBar)
        (rest : List PriceBar),
      (resampleWeekly data).reverse = current_week :: previous_week :: rest →
      (check_weekly_candle_criterion data = true ↔
        current_week.open_ < current_week.close ∨
          previous_week.high < current_week.high)) ∧
    resampleWeekly [wkb1, wkb2, wkb3] =
      [⟨3, 10, 25, 5, 11, 150⟩, ⟨10, 11, 30, 9, 15, 70⟩] ∧
    check_weekly_candle_criterion [wA1, wA2] = true ∧
    check_weekly_candle_criterion [wB1, wB2] = true ∧
    check_weekly_candle_criterion [wC1, wC2] = false := by
  refine ⟨?_, ?_, ?_, ?_, ?_, ?_⟩
  · intro data h
    rcases hrev : (resampleWeekly data).reverse with _ | ⟨c, _ | ⟨p, r⟩⟩
    · simp [check_weekly_candle_criterion, hrev]
    · simp [check_weekly_candle_criterion, hrev]
    · exfalso
      have hlen := congrArg List.length hrev
      simp only [List.length_reverse, List.length_cons] at hlen
      omega
  · intro data current_week previous_week rest hrev
    simp only [check_weekly_candle_criterion, hrev, Bool.or_eq_true, decide_eq_true_eq]
  · norm_num [resampleWeekly, groupWeeks, groupWeeksGo, weekIndex, aggWeek,
      listMax, listMin, lastClose, wkb1, wkb2, wkb3]
  · norm_num [check_weekly_candle_criterion, resampleWeekly, groupWeeks, groupWeeksGo,
      weekIndex, aggWeek, listMax, listMin, lastClose, wA1, wA2]
  · norm_num [check_weekly_candle_criterion, resampleWeekly, groupWeeks, groupWeeksGo,
      weekIndex, aggWeek, listMax, listMin, lastClose, wB1, wB2]
  · norm_num [check_weekly_candle_criterion, resampleWeekly, groupWeeks, groupWeeksGo,
      weekIndex, aggWeek, listMax, listMin, lastClose, wC1, wC2]

/-- **C5, witness.** -/
theorem c5_weekly_witness : check_weekly_candle_criterion [wA1, wA2] = true := by
  have hrev : (resampleWeekly [wA1, wA2]).reverse =
      (⟨17, 100, 110, 90, 105, 0⟩ : PriceBar) :: (⟨10, 100, 110, 90, 100, 0⟩ : PriceBar) :: [] := by
    norm_num [resampleWeekly, groupWeeks, groupWeeksGo, weekIndex, aggWeek,
      listMax, listMin, lastClose, wA1, wA2]
  exact (c5_weekly.2.1 [wA1, wA2] _ _ _ hrev).mpr (Or.inl (by norm_num))

/-- **C6.**  A symbol whose market capitalization is below 1000 crores, or
whose fetched series has fewer than 50 bars, is rejected by `screen_stock`
whatever the criteria would say. -/
theorem c6_insufficient_guards (s : IndianStockStrategy) (symbol : String)
    (market_cap : ℚ) (odata : Option (List PriceBar)) (data : List PriceBar)
    (hdata : odata = some data) (h : market_cap < 1000 ∨ data.length < 50) :
    screen_stock s symbol market_cap odata = none := by
  subst hdata
  rcases h with h | h
  · simp [screen_stock, h]
  · by_cases h1 : market_cap < 1000
    · simp [screen_stock, h1]
    · simp [screen_stock, h1, h]

/-- **C6, witness.** -/
theorem c6_insufficient_guards_witness :
    screen_stock ⟨10000⟩ "RELIANCE.NS" 0 (some []) = none :=
  c6_insufficient_guards ⟨10000⟩ "RELIANCE.NS" 0 (some []) [] rfl (Or.inl (by norm_num))

/-- **C8.**  For an index identifier outside the five supported ones the
universe provider does not fail: with no live constituents it silently
returns the static NIFTY-50 fallback list. -/
theorem c8_unknown_index_fallback (index : String)
    (h : index ∉ ["^NSEI", "^CRSLDX", "^BSESN", "^CNX100", "NIFTY_MIDCAP"]) :
    _get_nifty_symbols none index = nifty50Stocks ∧
    _get_fallback_stocks index = _get_fallback_stocks "^NSEI" := by
  simp only [List.mem_cons, List.not_mem_nil, or_false, not_or] at h
  obtain ⟨h1, h2, h3, h4, h5⟩ := h
  constructor
  · simp [_get_nifty_symbols, _get_fallback_stocks, h1, h2, h3, h4, h5]
  · simp [_get_fallback_stocks, h1, h2, h3, h4, h5]

/-- **C8, witness.** -/
theorem c8_unknown_index_fallback_witness :
    _get_nifty_symbols none "^GSPC" = nifty50Stocks :=
  (c8_unknown_index_fallback "^GSPC" (by simp)).1

/-- **C9.**  Screening one symbol is deterministic: on identical inputs
(the same configuration, market cap and price-series snapshot) two runs of
`screen_stock` return equal results. -/
theorem c9_deterministic (s : IndianStockStrategy) (symbol : String) (market_cap : ℚ)
    (odata : Option (List PriceBar)) (r₁ r₂ : Option ScreeningResult)
    (h₁ : screen_stock s symbol market_cap odata = r₁)
    (h₂ : screen_stock s symbol market_cap odata = r₂) : r₁ = r₂ :=
  h₁.symm.trans h₂

/-- **C9, witness.** -/
theorem c9_deterministic_witness : (none : Option ScreeningResult) = none := by
  have h : screen_stock ⟨10000⟩ "TCS.NS" 0 none = none := by norm_num [screen_stock]
  exact c9_deterministic ⟨10000⟩ "TCS.NS" 0 none none none h h

lemma screen_stock_some_iff (s : IndianStockStrategy) (symbol : String)
    (market_cap : ℚ) (data : List PriceBar) (r : ScreeningResult) :
    screen_stock s symbol market_cap (some data) = some r ↔
      (¬ market_cap < 1000 ∧ ¬ data.length < 50 ∧
        check_first_half_criterion (lastClose data) (calculate_52_week_range data).1
          (calculate_52_week_range data).2.1 = true ∧
        check_monthly_candle_criterion data (lastClose data) = true ∧
        check_weekly_candle_criterion data = true ∧
        ¬ (calculate_position_size s (lastClose data) (calculate_52_week_range data).2.1
            (calculate_52_week_range data).1).1 ≤ 0 ∧
        r = { symbol := symbol
              current_price := lastClose data
              entry_price := lastClose data
              stop_loss := (calculate_52_week_range data).2.1
              target_price := (calculate_52_week_range data).1
              quantity := (calculate_position_size s (lastClose data)
                (calculate_52_week_range data).2.1 (calculate_52_week_range data).1).1
              risk_amount := (calculate_position_size s (lastClose data)
                (calculate_52_week_range data).2.1 (calculate_52_week_range data).1).2.1
              profit_potential := (calculate_position_size s (lastClose data)
                (calculate_52_week_range data).2.1 (calculate_52_week_range data).1).2.2
              risk_reward_ratio :=
                if (calculate_position_size s (lastClose data)
                    (calculate_52_week_range data).2.1 (calculate_52_week_range data).1).2.1 > 0
                then (calculate_position_size s (lastClose data)
                    (calculate_52_week_range data).2.1 (calculate_52_week_range data).1).2.2 /
                  (calculate_position_size s (lastClose data)
                    (calculate_52_week_range data).2.1 (calculate_52_week_range data).1).2.1
                else 0
              market_cap := market_cap
              week_52_high := (calculate_52_week_range data).1
              week_52_low := (calculate_52_week_range data).2.1
              position_value := lastClose data * ((calculate_position_size s (lastClose data)
                (calculate_52_week_range data).2.1 (calculate_52_week_range data).1).1 : ℚ)
              criterion_1 := check_first_half_criterion (lastClose data)
                (calculate_52_week_range data).1 (calculate_52_week_range data).2.1
              criterion_2 := check_monthly_candle_criterion data (lastClose data)
              criterion_3 := check_weekly_candle_criterion data }) := by
  by_cases h1 : market_cap < 1000
  · simp [screen_stock, h1]
  · by_cases h2 : data.length < 50
    · simp [screen_stock, h1, h2]
    · by_cases hc : (check_first_half_criterion (lastClose data)
          (calculate_52_week_range data).1 (calculate_52_week_range data).2.1 &&
          (check_monthly_candle_criterion data (lastClose data) &&
            check_weekly_candle_criterion data)) = true
      · rw [Bool.and_eq_true, Bool.and_eq_true] at hc
        obtain ⟨hc1, hc2, hc3⟩ := hc
        by_cases hq : (calculate_position_size s (lastClose data)
            (calculate_52_week_range data).2.1 (calculate_52_week_range data).1).1 ≤ 0
        · simp [screen_stock, h1, h2, hc1, hc2, hc3, hq]
        · simp only [screen_stock, h1, h2, hc1, hc2, hc3, hq, if_false, Bool.and_self,
            Bool.not_true, Bool.false_eq_true, Option.some.injEq]
          constructor
          · intro hr
            exact ⟨not_false, not_false, trivial, trivial, trivial, not_false, hr.symm⟩
          · intro hr
            exact hr.2.2.2.2.2.2.symm
      · have hcf : (check_first_half_criterion (lastClose data)
            (calculate_52_week_range data).1 (calculate_52_week_range data).2.1 &&
            (check_monthly_candle_criterion data (lastClose data) &&
              check_weekly_candle_criterion data)) = false := by
          rcases hb : (check_first_half_criterion (lastClose data)
              (calculate_52_week_range data).1 (calculate_52_week_range data).2.1 &&
              (check_monthly_candle_criterion data (lastClose data) &&
                check_weekly_candle_criterion data)) with _ | _
          · rfl
          · exact absurd hb hc
        rw [Bool.and_eq_false_iff] at hcf
        simp only [screen_stock, h1, h2, if_false]
        rw [Bool.and_eq_true, Bool.and_eq_true] at hc
        push_neg at hc
        constructor
        · intro hr
          exfalso
          rcases hcf with hf | hf
          · simp [hf] at hr
          · rw [Bool.and_eq_false_iff] at hf
            rcases hf with hf | hf <;> simp [hf] at hr
        · intro hr
          exfalso
          rcases hcf with hf | hf
          · rw [hr.2.2.1] at hf; cases hf
          · rw [Bool.and_eq_false_iff] at hf
            rcases hf with hf | hf
            · rw [hr.2.2.2.1] at hf; cases hf
            · rw [hr.2.2.2.2.1] at hf; cases hf

lemma calculate_position_size_bounds (s : IndianStockStrategy) (entry stop target : ℚ)
    (hq : 0 < (calculate_position_size s entry stop target).1) (hentry : 0 < entry) :
    (calculate_position_size s entry stop target).2.1 ≤ s.max_risk_amount ∧
    entry * ((calculate_position_size s entry stop target).1 : ℚ) ≤ s.max_position_amount := by
  unfold calculate_position_size at hq ⊢
  by_cases h1 : entry - stop ≤ 0
  · simp [h1] at hq
  · simp only [h1, if_false] at hq ⊢
    by_cases h2 : (target - entry) / (entry - stop) ≤ 1
    · simp [h2] at hq
    · simp only [h2, if_false] at hq ⊢
      set a := s.max_risk_amount / (entry - stop) with ha
      set b := s.max_position_amount / entry with hb
      by_cases h3 : min (pyInt a) (pyInt b) ≤ 0
      · simp [h3] at hq
      · simp only [h3, if_false] at hq ⊢
        have hq0 : 0 < min (pyInt a) (pyInt b) := not_le.mp h3
        have ha1 : 1 ≤ a := pyInt_pos_iff.mp (lt_of_lt_of_le hq0 (min_le_left _ _))
        have hb1 : 1 ≤ b := pyInt_pos_iff.mp (lt_of_lt_of_le hq0 (min_le_right _ _))
        have hfa : ((pyInt a : ℤ) : ℚ) ≤ a := by
          rw [pyInt_of_nonneg (by linarith)]; exact Int.floor_le a
        have hfb : ((pyInt b : ℤ) : ℚ) ≤ b := by
          rw [pyInt_of_nonneg (by linarith)]; exact Int.floor_le b
        have hrisk : 0 < entry - stop := not_le.mp h1
        have hqa : ((min (pyInt a) (pyInt b) : ℤ) : ℚ) ≤ a :=
          le_trans (by exact_mod_cast (min_le_left (pyInt a) (pyInt b))) hfa
        have hqb : ((min (pyInt a) (pyInt b) : ℤ) : ℚ) ≤ b :=
          le_trans (by exact_mod_cast (min_le_right (pyInt a) (pyInt b))) hfb
        constructor
        · calc ((min (pyInt a) (pyInt b) : ℤ) : ℚ) * (entry - stop)
              ≤ a * (entry - stop) := mul_le_mul_of_nonneg_right hqa hrisk.le
          _ = s.max_risk_amount := div_mul_cancel₀ _ (ne_of_gt hrisk)
        · calc entry * ((min (pyInt a) (pyInt b) : ℤ) : ℚ)
              ≤ entry * b := mul_le_mul_of_nonneg_left hqb hentry.le
          _ = s.max_position_amount := by
              rw [hb, mul_div_cancel₀ _ (ne_of_gt hentry)]

/-- First bar of the concrete series: sets the 52-week extremes High 200 and
Low 100, closing at 120. -/
def cBar0 : PriceBar := ⟨0, 100, 200, 100, 120, 0⟩

/-- A flat bar on day `d`: Open 119, High 120, Low 119, Close 120. -/
def flatBar (d : ℕ) : PriceBar := ⟨d, 119, 120, 119, 120, 0⟩

/-- Three bars spanning 42 days: all three criteria hold and the sizer
returns a positive quantity, yet only 3 bars exist. -/
def shortData : List PriceBar := [cBar0, flatBar 40, flatBar 41]

/-- The strategy with the documented capital of 10000. -/
def strat10k : IndianStockStrategy := ⟨10000⟩

def D50 : List PriceBar :=
  [cBar0, flatBar 1, flatBar 2, flatBar 3, flatBar 4, flatBar 5, flatBar 6, flatBar 7, flatBar
   8, flatBar 9, flatBar 10, flatBar 11, flatBar 12, flatBar 13, flatBar 14, flatBar 15,
   flatBar 16, flatBar 17, flatBar 18, flatBar 19, flatBar 20, flatBar 21, flatBar 22, flatBar
   23, flatBar 24, flatBar 25, flatBar 26, flatBar 27, flatBar 28, flatBar 29, flatBar 30,
   flatBar 31, flatBar 32, flatBar 33, flatBar 34, flatBar 35, flatBar 36, flatBar 37, flatBar
   38, flatBar 39, flatBar 40, flatBar 41, flatBar 42, flatBar 43, flatBar 44, flatBar 45,
   flatBar 46, flatBar 47, flatBar 48, flatBar 49]

/-- The record `screen_stock` returns on `D50` with market cap 5000 and
capital 10000. -/
def D50result : ScreeningResult :=
  { symbol := "TEST.NS", current_price := 120, entry_price := 120, stop_loss := 100,
    target_price := 200, quantity := 8, risk_amount := 160, profit_potential := 640,
    risk_reward_ratio := 4, market_cap := 5000, week_52_high := 200, week_52_low := 100,
    position_value := 960, criterion_1 := true, criterion_2 := true, criterion_3 := true }

lemma D50_len : D50.length = 50 := by norm_num [D50]

lemma D50_lastClose : lastClose D50 = 120 := by norm_num [lastClose, D50, flatBar]

lemma D50_range : calculate_52_week_range D50 = (200, 100, 150) := by
  norm_num [calculate_52_week_range, D50, cBar0, flatBar, listMax, listMin, max_def, min_def]

lemma D50_crit1 : check_first_half_criterion 120 200 100 = true := by
  norm_num [check_first_half_criterion]

lemma D50_crit2 : check_monthly_candle_criterion D50 120 = true := by
  norm_num [check_monthly_candle_criterion, monthlyWindow, lastDate, D50, cBar0, flatBar,
    listMax, listMin, max_def, min_def, List.filter]

lemma D50_crit3 : check_weekly_candle_criterion D50 = true := by
  norm_num [check_weekly_candle_criterion, resampleWeekly, groupWeeks, groupWeeksGo,
    weekIndex, aggWeek, D50, cBar0, flatBar, listMax, listMin, lastClose, max_def, min_def]

lemma D50_psz : calculate_position_size strat10k 120 100 200 = (8, 160, 640) := by
  norm_num [calculate_position_size, pyInt, strat10k, IndianStockStrategy.max_risk_amount,
    IndianStockStrategy.max_position_amount, max_risk_per_trade, max_position_size, min_def]

lemma D50_screen : screen_stock strat10k "TEST.NS" 5000 (some D50) = some D50result := by
  rw [screen_stock_some_iff, D50_lastClose, D50_range, D50_len]
  refine ⟨by norm_num, by norm_num, ?_, ?_, ?_, ?_, ?_⟩
  · simpa using D50_crit1
  · exact D50_crit2
  · exact D50_crit3
  · simp [D50_psz]
  · simp [D50_psz, D50result, D50_crit2, D50_crit3]
    norm_num [D50_crit1]

/-- **C2, counterexample.**  On the 3-bar series `shortData` with market cap
5000 and capital 10000, all three criteria hold and the computed quantity is
8 > 0, yet `screen_stock` produces no result (only 3 of the required 50
bars): the claimed iff fails in the only-if..then direction. -/
theorem c2_counterexample :
    check_first_half_criterion (lastClose shortData) (calculate_52_week_range shortData).1
      (calculate_52_week_range shortData).2.1 = true ∧
    check_monthly_candle_criterion shortData (lastClose shortData) = true ∧
    check_weekly_candle_criterion shortData = true ∧
    0 < (calculate_position_size strat10k (lastClose shortData)
      (calculate_52_week_range shortData).2.1 (calculate_52_week_range shortData).1).1 ∧
    screen_stock strat10k "TEST.NS" 5000 (some shortData) = none := by
  have hlc : lastClose shortData = 120 := by norm_num [lastClose, shortData, flatBar]
  have hrange : calculate_52_week_range shortData = (200, 100, 150) := by
    norm_num [calculate_52_week_range, shortData, cBar0, flatBar, listMax, listMin,
      max_def, min_def]
  have hc2 : check_monthly_candle_criterion shortData 120 = true := by
    norm_num [check_monthly_candle_criterion, monthlyWindow, shortData, cBar0, flatBar,
      lastDate, listMax, listMin, max_def, min_def, List.filter]
  have hc3 : check_weekly_candle_criterion shortData = true := by
    norm_num [check_weekly_candle_criterion, resampleWeekly, groupWeeks, groupWeeksGo,
      weekIndex, aggWeek, shortData, cBar0, flatBar, listMax, listMin, lastClose,
      max_def, min_def]
  rw [hlc, hrange]
  refine ⟨by simpa using D50_crit1, hc2, hc3, by simp [D50_psz], ?_⟩
  norm_num [screen_stock, shortData]

/-- **C2, amended.**  For every symbol: when the data fetch yields nothing
no result is produced, and for a fetched series `screen_stock` yields a
result iff the market cap is at least 1000, the series has at least 50
bars, all three criteria hold, and the computed quantity is positive. -/
theorem c2_screen_iff :
    (∀ (s : IndianStockStrategy) (symbol : String) (market_cap : ℚ),
      screen_stock s symbol market_cap none = none) ∧
    (∀ (s : IndianStockStrategy) (symbol : String) (market_cap : ℚ)
        (data : List PriceBar),
      (screen_stock s symbol market_cap (some data)).isSome = true ↔
        (1000 ≤ market_cap ∧ 50 ≤ data.length ∧
          check_first_half_criterion (lastClose data) (calculate_52_week_range data).1
            (calculate_52_week_range data).2.1 = true ∧
          check_monthly_candle_criterion data (lastClose data) = true ∧
          check_weekly_candle_criterion data = true ∧
          0 < (calculate_position_size s (lastClose data) (calculate_52_week_range data).2.1
            (calculate_52_week_range data).1).1)) := by
  constructor
  · intro s symbol market_cap
    by_cases h : market_cap < 1000 <;> simp [screen_stock, h]
  · intro s symbol market_cap data
    constructor
    · intro h
      obtain ⟨r, hr⟩ := Option.isSome_iff_exists.mp h
      obtain ⟨h1, h2, h3, h4, h5, h6, -⟩ :=
        (screen_stock_some_iff s symbol market_cap data r).mp hr
      exact ⟨not_lt.mp h1, not_lt.mp h2, h3, h4, h5, not_le.mp h6⟩
    · rintro ⟨hm, hl, hc1, hc2, hc3, hq⟩
      have h := (screen_stock_some_iff s symbol market_cap data _).mpr
        ⟨not_lt.mpr hm, not_lt.mpr hl, hc1, hc2, hc3, not_le.mpr hq, rfl⟩
      rw [h]
      rfl

/-- **C2, witness.** -/
theorem c2_screen_iff_witness :
    (screen_stock strat10k "TEST.NS" 5000 (some D50)).isSome = true := by
  refine (c2_screen_iff.2 strat10k "TEST.NS" 5000 D50).mpr
    ⟨by norm_num, by rw [D50_len], ?_, ?_, ?_, ?_⟩
  · rw [D50_lastClose, D50_range]
    simpa using D50_crit1
  · rw [D50_lastClose]
    exact D50_crit2
  · exact D50_crit3
  · rw [D50_lastClose, D50_range]
    simp [D50_psz]

/-- **C7.**  Every emitted result takes its sizing inputs from the 52-week
range and the latest close: the stop loss is the 52-week low (minimum of the
Low column), the target the 52-week high (maximum of the High column), and
both entry price and current price equal the close of the last bar. -/
theorem c7_sizing_inputs (s : IndianStockStrategy) (symbol : String) (market_cap : ℚ)
    (data : List PriceBar) (r : ScreeningResult)
    (h : screen_stock s symbol market_cap (some data) = some r) :
    r.stop_loss = listMin (data.map PriceBar.low) ∧
    r.target_price = listMax (data.map PriceBar.high) ∧
    r.entry_price = lastClose data ∧
    r.current_price = lastClose data := by
  obtain ⟨-, -, -, -, -, -, hr⟩ := (screen_stock_some_iff s symbol market_cap data r).mp h
  subst hr
  refine ⟨?_, ?_, rfl, rfl⟩ <;> simp [calculate_52_week_range]

/-- **C7, witness.** -/
theorem c7_sizing_inputs_witness :
    D50result.stop_loss = listMin (D50.map PriceBar.low) ∧
    D50result.target_price = listMax (D50.map PriceBar.high) ∧
    D50result.entry_price = lastClose D50 ∧
    D50result.current_price = lastClose D50 :=
  c7_sizing_inputs strat10k "TEST.NS" 5000 D50 D50result D50_screen

/-- **C10.**  Every emitted result with positive entry price and positive
per-share risk respects both capital caps: its risk amount is at most
`max_risk_amount = portfolio_capital * 0.02` and its position value
`current_price * quantity` is at most
`max_position_amount = portfolio_capital * 0.10`. -/
theorem c10_capital_constraints (s : IndianStockStrategy) (symbol : String)
    (market_cap : ℚ) (data : List PriceBar) (r : ScreeningResult)
    (h : screen_stock s symbol market_cap (some data) = some r)
    (hentry : 0 < r.entry_price) (hrisk : 0 < r.entry_price - r.stop_loss) :
    r.risk_amount ≤ s.max_risk_amount ∧
    r.position_value ≤ s.max_position_amount ∧
    r.position_value = r.current_price * (r.quantity : ℚ) ∧
    s.max_risk_amount = s.portfolio_capital * 0.02 ∧
    s.max_position_amount = s.portfolio_capital * 0.10 := by
  obtain ⟨-, -, -, -, -, hq, hr⟩ := (screen_stock_some_iff s symbol market_cap data r).mp h
  subst hr
  have hentry' : 0 < lastClose data := hentry
  have hb := calculate_position_size_bounds s (lastClose data)
    (calculate_52_week_range data).2.1 (calculate_52_week_range data).1
    (not_le.mp hq) hentry'
  exact ⟨hb.1, hb.2, rfl,
    by simp [IndianStockStrategy.max_risk_amount, max_risk_per_trade],
    by simp [IndianStockStrategy.max_position_amount, max_position_size]⟩

/-- **C10, witness.** -/
theorem c10_capital_constraints_witness :
    D50result.risk_amount ≤ strat10k.max_risk_amount ∧
    D50result.position_value ≤ strat10k.max_position_amount ∧
    D50result.position_value = D50result.current_price * (D50result.quantity : ℚ) ∧
    strat10k.max_risk_amount = strat10k.portfolio_capital * 0.02 ∧
    strat10k.max_position_amount = strat10k.portfolio_capital * 0.10 :=
  c10_capital_constraints strat10k "TEST.NS" 5000 D50 D50result D50_screen
    (by norm_num [D50result]) (by norm_num [D50result])
